import Mathlib

/-!
# Verification of the containerd client image-distribution core (`client.go`)

This file shallowly embeds the pull/push orchestration logic of the
containerd `Client` (`Pull`, `Push`, `Import`, `Export` and their option
plumbing from `client.go`) and proves the specified properties about it.

The source under verification is `client.go` alone.  The collaborators it
calls (`images.Dispatch`, `images.Handlers`, `images.ChildrenHandler`,
`remotes.FetchHandler`, `remotes.PushHandler`, `schema1.Converter`,
`errdefs.IsNotFound`, the image/content services, `reference.Parse`, and
the tar import/export back-ends) live elsewhere in the repository and are
modelled from the specification as an explicit environment of oracles
(`Env`) plus a deterministic, sequential dispatcher.  Effects are made
observable through a trace of `Event`s.
-/

set_option autoImplicit false
set_option linter.unusedVariables false

namespace Containerd

/-- A content descriptor (`ocispec.Descriptor`): digest, media type, size.
Identity is by value; the embedding keeps only the fields `client.go`
inspects. -/
structure Descriptor where
  digest : String
  mediaType : String
  size : Nat
  deriving DecidableEq, Repr

/-- Constant `images.MediaTypeDockerSchema2Manifest`. -/
def MediaTypeDockerSchema2Manifest : String :=
  "application/vnd.docker.distribution.manifest.v2+json"

/-- Constant `images.MediaTypeDockerSchema2ManifestList`. -/
def MediaTypeDockerSchema2ManifestList : String :=
  "application/vnd.docker.distribution.manifest.list.v2+json"

/-- Constant `images.MediaTypeDockerSchema1Manifest`. -/
def MediaTypeDockerSchema1Manifest : String :=
  "application/vnd.docker.distribution.manifest.v1+prettyjws"

/-- Constant `ocispec.MediaTypeImageManifest`. -/
def MediaTypeImageManifest : String :=
  "application/vnd.oci.image.manifest.v1+json"

/-- Constant `ocispec.MediaTypeImageIndex`. -/
def MediaTypeImageIndex : String :=
  "application/vnd.oci.image.index.v1+json"

/-- Error values observable by `client.go`.  `notFound` models the error
class recognised by `errdefs.IsNotFound`; `unsupportedFormat` models the
"not supported" / "unsupported format" failures; `fuelExhausted` is an
artifact of the bounded dispatcher; `other` covers every further error. -/
inductive Err where
  | notFound
  | unsupportedFormat
  | fuelExhausted
  | other (msg : String)
  deriving DecidableEq, Repr

/-- Modelled from the spec: `errdefs.IsNotFound` recognises exactly the
`NotFound`-kind errors used to pick the create-fallback path. -/
def Err.isNotFound : Err → Bool
  | Err.notFound => true
  | _ => false

/-- An image record (`images.Image`): name plus target descriptor. -/
structure ImageRec where
  name : String
  target : Descriptor
  deriving DecidableEq, Repr

/-- Observable effects of a pull/push/import call, in order of occurrence. -/
inductive Event where
  /-- The call `Resolver.Resolve` was invoked on a reference. -/
  | resolve (ref : String)
  /-- A blob was fetched into the content store (`remotes.FetchHandler`). -/
  | storeWrite (d : Descriptor)
  /-- A blob or manifest was uploaded (`remotes.PushHandler`). -/
  | upload (d : Descriptor)
  /-- The call `ImageService().Update` was invoked. -/
  | imgUpdate (name : String) (target : Descriptor)
  /-- The call `ImageService().Create` was invoked. -/
  | imgCreate (name : String) (target : Descriptor)
  /-- The call `image.Unpack` was invoked with a snapshotter name. -/
  | unpack (snapshotter : String)
  deriving DecidableEq, Repr

/-- Result of a single handler invocation: children to recurse into, the
`images.StopHandler` sentinel, or a hard error. -/
inductive HRes where
  | ok (children : List Descriptor)
  | stop
  | err (e : Err)
  deriving Repr

/-- Modelled from the spec: the environment of collaborators consumed by
`client.go` — resolver/fetcher/pusher, content children discovery, the
image metadata registry, the schema 1 converter, the unpack subsystem,
reference parsing and the OCI tar importer.  `fuel` bounds the recursion
depth of the modelled dispatcher. -/
structure Env where
  fuel : Nat
  /-- Oracle for `Resolver.Resolve`: reference → (canonical name, root descriptor). -/
  resolve : String → Except Err (String × Descriptor)
  /-- Error returned by `Resolver.Fetcher`, if any. -/
  fetcherErr : Option Err
  /-- Error returned by `Resolver.Pusher`, if any. -/
  pusherErr : Option Err
  /-- Oracle for `images.ChildrenHandler`: children discovered for a descriptor. -/
  children : Descriptor → List Descriptor
  /-- Failure of `remotes.FetchHandler` on a (non-schema-1) descriptor. -/
  fetchErr : Descriptor → Option Err
  /-- Failure of `remotes.PushHandler` on a descriptor. -/
  uploadErr : Descriptor → Option Err
  /-- Oracle for `schema1.Converter.Convert`: the converted root descriptor. -/
  convert : Except Err Descriptor
  /-- Oracle for the `ImageService().Update` outcome (`none` = success). -/
  update : String → Descriptor → Option Err
  /-- Oracle for the `ImageService().Create` outcome (`none` = success). -/
  create : String → Descriptor → Option Err
  /-- Oracle for the `image.Unpack` outcome for a snapshotter name (`none` = success). -/
  unpackErr : String → Option Err
  /-- Oracle for `reference.Parse`: reference → object part. -/
  parseRef : String → Except Err String
  /-- Oracle for the `Client.importFromOCITar` outcome. -/
  importOCITar : Except Err ImageRec

/-- Structure `RemoteContext` from `client.go`: the per-call option bundle.  The
resolver itself lives in `Env`; caller-supplied base handlers are pure
handler functions. -/
structure RemoteContext where
  unpack : Bool := false
  snapshotter : String := ""
  baseHandlers : List (Descriptor → HRes) := []
  convertSchema1 : Bool := false

/-- Function `defaultRemoteContext()` from `client.go`. -/
def defaultRemoteContext : RemoteContext := {}

/-- Type `RemoteOpts`: an option mutating the `RemoteContext`, possibly failing. -/
abbrev RemoteOpts : Type := RemoteContext → Except Err RemoteContext

/-- Sequential application of option functions, stopping at the first
error — the `for _, o := range opts { if err := o(...) }` loops. -/
def foldOpts {α : Type} : List (α → Except Err α) → α → Except Err α
  | [], c => Except.ok c
  | o :: rest, c =>
    match o c with
    | Except.error e => Except.error e
    | Except.ok c2 => foldOpts rest c2

/-- The option loop at the head of `Pull`/`Push`, starting from
`defaultRemoteContext()`. -/
def applyRemoteOpts (opts : List RemoteOpts) : Except Err RemoteContext :=
  foldOpts opts defaultRemoteContext

/-- Option `WithPullUnpack` from `client.go`. -/
def WithPullUnpack : RemoteOpts :=
  fun c => Except.ok { c with unpack := true }

/-- Option `WithPullSnapshotter` from `client.go`. -/
def WithPullSnapshotter (snapshotterName : String) : RemoteOpts :=
  fun c => Except.ok { c with snapshotter := snapshotterName }

/-- Option `WithSchema1Conversion` from `client.go`. -/
def WithSchema1Conversion : RemoteOpts :=
  fun c => Except.ok { c with convertSchema1 := true }

/-- Option `WithImageHandler` from `client.go`: appends a base handler. -/
def WithImageHandler (h : Descriptor → HRes) : RemoteOpts :=
  fun c => Except.ok { c with baseHandlers := c.baseHandlers ++ [h] }

/-- The handlers `client.go` composes into chains: caller-supplied base
handlers, `remotes.FetchHandler`, `images.ChildrenHandler`, the
`schema1.Converter` used as a handler, the push manifest filter, and
`remotes.PushHandler`. -/
inductive CHandler where
  | base (h : Descriptor → HRes)
  | fetchH
  | childrenH
  | schema1H
  | filterH
  | pushH

/-- Whether a media type is one of the four manifest-like types matched by
the `switch` in `Push`'s filter handler. -/
def manifestLikeMT (mt : String) : Bool :=
  mt == MediaTypeDockerSchema2Manifest || mt == MediaTypeImageManifest ||
  mt == MediaTypeDockerSchema2ManifestList || mt == MediaTypeImageIndex

/-- The `filterHandler` closure from `Push` (`client.go` lines 447–458):
a manifest-like descriptor is appended to the manifest stack and the
handler returns no children with the `StopHandler` signal; any other
descriptor passes through with no children, no error, stack unchanged. -/
def filterHandler (d : Descriptor) (manifestStack : List Descriptor) :
    HRes × List Descriptor :=
  if manifestLikeMT d.mediaType then
    (HRes.stop, manifestStack ++ [d])
  else
    (HRes.ok [], manifestStack)

/-- One handler invocation.  The state component is the push manifest
stack (unused by the pull handlers).  `fetchH`'s rejection of schema 1
manifests and `schema1H`'s effect-free answer are modelled from the spec
(`remotes` and `schema1` packages are outside `client.go`). -/
def runHandler (env : Env) :
    CHandler → Descriptor → List Descriptor → HRes × List Descriptor × List Event
  | CHandler.base h, d, st => (h d, st, [])
  | CHandler.fetchH, d, st =>
    if d.mediaType = MediaTypeDockerSchema1Manifest then
      (HRes.err Err.unsupportedFormat, st, [])
    else
      match env.fetchErr d with
      | some e => (HRes.err e, st, [])
      | none => (HRes.ok [], st, [Event.storeWrite d])
  | CHandler.childrenH, d, st => (HRes.ok (env.children d), st, [])
  | CHandler.schema1H, _, st => (HRes.ok [], st, [])
  | CHandler.filterH, d, st =>
    let r := filterHandler d st
    (r.1, r.2, [])
  | CHandler.pushH, d, st =>
    match env.uploadErr d with
    | some e => (HRes.err e, st, [])
    | none => (HRes.ok [], st, [Event.upload d])

/-- Modelled from the spec: `images.Handlers` chain composition.  Members
run in order on the same descriptor; children are concatenated; a member
returning `StopHandler` breaks the loop, keeping the children accumulated
so far with no error; a hard error propagates immediately, discarding
children (earlier effects persist). -/
def runHandlers (env : Env) :
    List CHandler → Descriptor → List Descriptor →
      Except Err (List Descriptor) × List Descriptor × List Event
  | [], _, st => (Except.ok [], st, [])
  | h :: rest, d, st =>
    match runHandler env h d st with
    | (HRes.stop, st1, evs1) => (Except.ok [], st1, evs1)
    | (HRes.err e, st1, evs1) => (Except.error e, st1, evs1)
    | (HRes.ok ch, st1, evs1) =>
      match runHandlers env rest d st1 with
      | (Except.ok ch2, st2, evs2) => (Except.ok (ch ++ ch2), st2, evs1 ++ evs2)
      | (Except.error e, st2, evs2) => (Except.error e, st2, evs1 ++ evs2)

/-- Modelled from the spec: `images.Dispatch` — walk the graph from a
frontier, invoking the chain on each descriptor and recursing into the
returned children; the first hard error aborts the dispatch.  The model
is a deterministic sequential linearization of the concurrent traversal,
bounded by fuel (`Err.fuelExhausted` is the out-of-fuel artifact). -/
def dispatch (env : Env) (chain : List CHandler) :
    Nat → List Descriptor → List Descriptor →
      Option Err × List Descriptor × List Event
  | _, [], st => (none, st, [])
  | 0, _ :: _, st => (some Err.fuelExhausted, st, [])
  | Nat.succ fuel, d :: rest, st =>
    match runHandlers env chain d st with
    | (Except.error e, st1, evs1) => (some e, st1, evs1)
    | (Except.ok ch, st1, evs1) =>
      let r := dispatch env chain fuel (ch ++ rest) st1
      (r.1, r.2.1, evs1 ++ r.2.2)

/-- The condition on `client.go` line 377: root media type is a Docker
schema 1 manifest and conversion was requested. -/
def schema1Mode (ctx : RemoteContext) (desc : Descriptor) : Bool :=
  desc.mediaType == MediaTypeDockerSchema1Manifest && ctx.convertSchema1

/-- The handler chain `Pull` builds (`client.go` lines 377–385): base
handlers followed by the schema 1 converter alone in schema-1-conversion
mode, otherwise base handlers followed by the fetch and children
handlers. -/
def pullChain (ctx : RemoteContext) (desc : Descriptor) : List CHandler :=
  if schema1Mode ctx desc then
    ctx.baseHandlers.map CHandler.base ++ [CHandler.schema1H]
  else
    ctx.baseHandlers.map CHandler.base ++ [CHandler.fetchH, CHandler.childrenH]

/-- The `schema1Converter.Convert` step (`client.go` lines 390–395): in
schema 1 mode the dispatched root descriptor is replaced by the converted
descriptor, otherwise kept. -/
def convertPhase (env : Env) (mode : Bool) (desc : Descriptor) :
    Except Err Descriptor :=
  if mode then env.convert else Except.ok desc

/-- The unpack epilogue of `Pull` (`client.go` lines 418–427). -/
def withUnpack (env : Env) (ctx : RemoteContext) (rec : ImageRec)
    (evs : List Event) : Except Err ImageRec × List Event :=
  if ctx.unpack then
    match env.unpackErr ctx.snapshotter with
    | some e => (Except.error e, evs ++ [Event.unpack ctx.snapshotter])
    | none => (Except.ok rec, evs ++ [Event.unpack ctx.snapshotter])
  else
    (Except.ok rec, evs)

/-- The image-record upsert of `Pull` (`client.go` lines 397–416): try
`Update`; on a `NotFound`-kind failure fall back to `Create`; any other
update error, or a create error, fails the pull; then unpack if asked. -/
def pullFinish (env : Env) (ctx : RemoteContext) (name : String)
    (desc2 : Descriptor) : Except Err ImageRec × List Event :=
  match env.update name desc2 with
  | none => withUnpack env ctx ⟨name, desc2⟩ [Event.imgUpdate name desc2]
  | some e =>
    if e.isNotFound then
      match env.create name desc2 with
      | some e2 =>
        (Except.error e2, [Event.imgUpdate name desc2, Event.imgCreate name desc2])
      | none =>
        withUnpack env ctx ⟨name, desc2⟩
          [Event.imgUpdate name desc2, Event.imgCreate name desc2]
    else
      (Except.error e, [Event.imgUpdate name desc2])

/-- Body of `Pull` after successful resolution and fetcher acquisition: dispatch
the pull chain from the root, convert in schema 1 mode, then upsert and
unpack. -/
def pullResolved (env : Env) (ctx : RemoteContext) (name : String)
    (desc : Descriptor) : Except Err ImageRec × List Event :=
  match dispatch env (pullChain ctx desc) env.fuel [desc] [] with
  | (some e, _, evs) => (Except.error e, evs)
  | (none, _, evs) =>
    match convertPhase env (schema1Mode ctx desc) desc with
    | Except.error e => (Except.error e, evs)
    | Except.ok desc2 =>
      let r := pullFinish env ctx name desc2
      (r.1, evs ++ r.2)

/-- Function `Client.Pull` (`client.go` lines 354–428): build the remote context
from the options, resolve the reference, obtain a fetcher, dispatch,
convert, upsert the image record, and optionally unpack. -/
def Pull (env : Env) (opts : List RemoteOpts) (ref : String) :
    Except Err ImageRec × List Event :=
  match applyRemoteOpts opts with
  | Except.error e => (Except.error e, [])
  | Except.ok pullCtx =>
    match env.resolve ref with
    | Except.error e => (Except.error e, [Event.resolve ref])
    | Except.ok (name, desc) =>
      match env.fetcherErr with
      | some e => (Except.error e, [Event.resolve ref])
      | none =>
        let r := pullResolved env pullCtx name desc
        (r.1, Event.resolve ref :: r.2)

/-- The handler chain `Push` builds (`client.go` lines 463–467): base
handlers, children discovery, the manifest filter, then the upload
handler. -/
def pushChain (ctx : RemoteContext) : List CHandler :=
  ctx.baseHandlers.map CHandler.base ++
    [CHandler.childrenH, CHandler.filterH, CHandler.pushH]

/-- The final manifest pass of `Push` (`client.go` lines 473–479) applied
to an already-reversed stack: invoke the upload handler on each
descriptor in order, stopping at the first error. -/
def uploadAll (env : Env) : List Descriptor → Option Err × List Event
  | [] => (none, [])
  | d :: rest =>
    match env.uploadErr d with
    | some e => (some e, [])
    | none =>
      let r := uploadAll env rest
      (r.1, Event.upload d :: r.2)

/-- Function `Client.Push` (`client.go` lines 430–481): build the remote context,
obtain a pusher, dispatch the push chain collecting the manifest stack,
then upload the collected manifests in reverse discovery order. -/
def Push (env : Env) (opts : List RemoteOpts) (desc : Descriptor) :
    Option Err × List Event :=
  match applyRemoteOpts opts with
  | Except.error e => (some e, [])
  | Except.ok pushCtx =>
    match env.pusherErr with
    | some e => (some e, [])
    | none =>
      match dispatch env (pushChain pushCtx) env.fuel [desc] [] with
      | (some e, _, evs) => (some e, evs)
      | (none, manifestStack, evs) =>
        let r := uploadAll env manifestStack.reverse
        (r.1, evs ++ r.2)

/-- Constant `ociImageFormat` from `client.go`. -/
def ociImageFormat : String := "oci"

/-- Structure `importOpts` from `client.go`. -/
structure importOpts where
  format : String := ""
  refObject : String := ""
  deriving DecidableEq, Repr

/-- Type `ImportOpt`: an option mutating `importOpts`, possibly failing. -/
abbrev ImportOpt : Type := importOpts → Except Err importOpts

/-- Option `WithOCIImportFormat` from `client.go`: sets the OCI format, failing
if a format was already set. -/
def WithOCIImportFormat : ImportOpt :=
  fun c =>
    if c.format ≠ "" then Except.error (Err.other "format already set")
    else Except.ok { c with format := ociImageFormat }

/-- Option `WithRefObject` from `client.go`. -/
def WithRefObject (refObject : String) : ImportOpt :=
  fun c => Except.ok { c with refObject := refObject }

/-- Function `resolveImportOpt` from `client.go`: apply the options, default the
format to OCI, and default the ref object from the parsed reference. -/
def resolveImportOpt (env : Env) (ref : String) (opts : List ImportOpt) :
    Except Err importOpts :=
  match foldOpts opts {} with
  | Except.error e => Except.error e
  | Except.ok iopts =>
    let iopts := if iopts.format = "" then { iopts with format := ociImageFormat } else iopts
    if iopts.refObject = "" then
      match env.parseRef ref with
      | Except.error e => Except.error e
      | Except.ok obj => Except.ok { iopts with refObject := obj }
    else
      Except.ok iopts

/-- Function `Client.Import` (`client.go` lines 636–647): resolve the options,
then dispatch on the format — OCI goes to the tar importer, anything
else is an unsupported-format error. -/
def Import (env : Env) (ref : String) (opts : List ImportOpt) :
    Except Err ImageRec :=
  match resolveImportOpt env ref opts with
  | Except.error e => Except.error e
  | Except.ok iopts =>
    if iopts.format = ociImageFormat then env.importOCITar
    else Except.error Err.unsupportedFormat

/-- Structure `exportOpts` from `client.go`. -/
structure exportOpts where
  format : String := ""
  deriving DecidableEq, Repr

/-- Type `ExportOpt`: an option mutating `exportOpts`, possibly failing. -/
abbrev ExportOpt : Type := exportOpts → Except Err exportOpts

/-- Option `WithOCIExportFormat` from `client.go`. -/
def WithOCIExportFormat : ExportOpt :=
  fun c =>
    if c.format ≠ "" then Except.error (Err.other "format already set")
    else Except.ok { c with format := ociImageFormat }

/-- Function `Client.Export` (`client.go` lines 674–695): apply the options,
default the format to OCI; the OCI branch hands back a reader at once
(`Except.ok ()` — export errors surface later through the pipe), any
other format yields an unsupported-format error and no reader. -/
def Export (env : Env) (desc : Descriptor) (opts : List ExportOpt) :
    Except Err Unit :=
  match foldOpts opts {} with
  | Except.error e => Except.error e
  | Except.ok eopts =>
    let eopts := if eopts.format = "" then { eopts with format := ociImageFormat } else eopts
    if eopts.format = ociImageFormat then Except.ok ()
    else Except.error Err.unsupportedFormat

/-! ## Concrete inputs used by the witnesses and the counterexample -/

/-- A schema 2 manifest descriptor. -/
def descManifest : Descriptor :=
  ⟨"sha256:mmm", MediaTypeDockerSchema2Manifest, 7⟩

/-- A layer blob descriptor. -/
def descLayer : Descriptor :=
  ⟨"sha256:lll", "application/vnd.docker.image.rootfs.diff.tar.gzip", 3⟩

/-- A Docker schema 1 manifest descriptor. -/
def descSchema1 : Descriptor :=
  ⟨"sha256:s1s1", MediaTypeDockerSchema1Manifest, 5⟩

/-- A benign concrete environment: resolution yields `descManifest`, whose
only child is `descLayer`; every collaborator succeeds. -/
def envW : Env where
  fuel := 5
  resolve := fun _ => Except.ok ("docker.io/library/busybox:latest", descManifest)
  fetcherErr := none
  pusherErr := none
  children := fun d => if d = descManifest then [descLayer] else []
  fetchErr := fun _ => none
  uploadErr := fun _ => none
  convert := Except.ok descManifest
  update := fun _ _ => none
  create := fun _ _ => none
  unpackErr := fun _ => none
  parseRef := fun _ => Except.ok "latest"
  importOCITar := Except.ok ⟨"imported", descManifest⟩

/-- Environment `envW` with an image registry that has no record yet: `Update` fails
`NotFound`, `Create` succeeds. -/
def envNoRecord : Env :=
  { envW with update := fun _ _ => some Err.notFound }

/-- Environment `envW` with a resolver that resolves to the schema 1 descriptor. -/
def envSchema1 : Env :=
  { envW with
      resolve := fun _ => Except.ok ("legacy/name", descSchema1)
      convert := Except.ok descManifest }

/-- Environment `envW` with a failing resolver. -/
def envResolveErr : Env :=
  { envW with resolve := fun _ => Except.error (Err.other "resolve failed") }

/-- Environment `envW` with an upload handler that fails on the manifest. -/
def envUploadErr : Env :=
  { envW with
      uploadErr := fun d =>
        if d = descManifest then some (Err.other "upload failed") else none }

/-- A caller-supplied base handler that returns the `StopHandler` signal
on every descriptor (legitimately installable via `WithImageHandler`). -/
def stopBaseHandler : Descriptor → HRes := fun _ => HRes.stop

/-- The remote context produced by installing `stopBaseHandler`. -/
def ctxStopBase : RemoteContext :=
  { defaultRemoteContext with baseHandlers := [stopBaseHandler] }

/-- The remote context produced by `WithSchema1Conversion` alone. -/
def ctxSchema1 : RemoteContext :=
  { defaultRemoteContext with convertSchema1 := true }

/-- The remote context produced by `WithPullUnpack` alone. -/
def ctxUnpack : RemoteContext :=
  { defaultRemoteContext with unpack := true }

/-- A remote option that fails outright. -/
def failingRemoteOpt : RemoteOpts :=
  fun _ => Except.error (Err.other "bad option")

/-- An import option requesting a non-OCI format. -/
def dockerFormatOpt : ImportOpt :=
  fun c => Except.ok { c with format := "docker-archive" }

/-- An export option requesting a non-OCI format. -/
def dockerExportFormatOpt : ExportOpt :=
  fun c => Except.ok { c with format := "docker-archive" }

/-! ## Helper lemmas -/

/-- Events that the graph traversal itself can emit. -/
def isTraversalEvent : Event → Bool
  | Event.storeWrite _ => true
  | Event.upload _ => true
  | _ => false

/-- Events that touch the image metadata registry. -/
def isRegistryEvent : Event → Bool
  | Event.imgUpdate _ _ => true
  | Event.imgCreate _ _ => true
  | _ => false

theorem foldOpts_append {α : Type} (os1 os2 : List (α → Except Err α)) (c : α) :
    foldOpts (os1 ++ os2) c =
      match foldOpts os1 c with
      | Except.error e => Except.error e
      | Except.ok c2 => foldOpts os2 c2 := by
  induction os1 generalizing c with
  | nil => simp [foldOpts]
  | cons o rest ih =>
    simp only [List.cons_append, foldOpts]
    cases o c with
    | error e => simp
    | ok c2 => simpa using ih c2

theorem uploadAll_events (env : Env) (l : List Descriptor) :
    ∃ k, k ≤ l.length ∧ (uploadAll env l).2 = (l.take k).map Event.upload ∧
      ((uploadAll env l).1 = none → k = l.length) := by
  induction l with
  | nil => exact ⟨0, by simp [uploadAll]⟩
  | cons d rest ih =>
    obtain ⟨k, hk, h2, h3⟩ := ih
    cases hu : env.uploadErr d with
    | some e => exact ⟨0, by simp [uploadAll, hu]⟩
    | none =>
      refine ⟨k + 1, by simpa using hk, ?_, ?_⟩
      · simp [uploadAll, hu, h2]
      · intro h
        have : (uploadAll env rest).1 = none := by
          simpa [uploadAll, hu] using h
        simp [h3 this]

theorem uploadAll_error (env : Env) (l1 : List Descriptor) (d : Descriptor)
    (l2 : List Descriptor) (e : Err)
    (h1 : ∀ x ∈ l1, env.uploadErr x = none) (h2 : env.uploadErr d = some e) :
    uploadAll env (l1 ++ d :: l2) = (some e, l1.map Event.upload) := by
  induction l1 with
  | nil => simp [uploadAll, h2]
  | cons a rest ih =>
    have ha : env.uploadErr a = none := h1 a (by simp)
    have hrest := ih (fun x hx => h1 x (by simp [hx]))
    simp [uploadAll, ha, hrest]

theorem runHandler_events_traversal (env : Env) (h : CHandler) (d : Descriptor)
    (st : List Descriptor) :
    ∀ ev ∈ (runHandler env h d st).2.2, isTraversalEvent ev = true := by
  intro ev hev
  cases h with
  | base f => simp [runHandler] at hev
  | fetchH =>
    by_cases hmt : d.mediaType = MediaTypeDockerSchema1Manifest
    · simp [runHandler, hmt] at hev
    · cases hf : env.fetchErr d with
      | some e => simp [runHandler, hmt, hf] at hev
      | none =>
        simp [runHandler, hmt, hf] at hev
        simp [hev, isTraversalEvent]
  | childrenH => simp [runHandler] at hev
  | schema1H => simp [runHandler] at hev
  | filterH => simp [runHandler] at hev
  | pushH =>
    cases hu : env.uploadErr d with
    | some e => simp [runHandler, hu] at hev
    | none =>
      simp [runHandler, hu] at hev
      simp [hev, isTraversalEvent]

theorem runHandlers_events_traversal (env : Env) (hs : List CHandler) (d : Descriptor)
    (st : List Descriptor) :
    ∀ ev ∈ (runHandlers env hs d st).2.2, isTraversalEvent ev = true := by
  induction hs generalizing st with
  | nil => intro ev hev; simp [runHandlers] at hev
  | cons h rest ih =>
    intro ev hev
    rcases hr : runHandler env h d st with ⟨res, st1, evs1⟩
    have hh := runHandler_events_traversal env h d st
    rw [hr] at hh
    cases res with
    | stop =>
      simp [runHandlers, hr] at hev
      exact hh ev hev
    | err e =>
      simp [runHandlers, hr] at hev
      exact hh ev hev
    | ok ch =>
      rcases hr2 : runHandlers env rest d st1 with ⟨res2, st2, evs2⟩
      have h2 := ih st1
      rw [hr2] at h2
      cases res2 with
      | ok ch2 =>
        simp [runHandlers, hr, hr2] at hev
        rcases hev with hev | hev
        · exact hh ev hev
        · exact h2 ev hev
      | error e =>
        simp [runHandlers, hr, hr2] at hev
        rcases hev with hev | hev
        · exact hh ev hev
        · exact h2 ev hev

theorem dispatch_events_traversal (env : Env) (chain : List CHandler) :
    ∀ fuel frontier st, ∀ ev ∈ (dispatch env chain fuel frontier st).2.2,
      isTraversalEvent ev = true := by
  intro fuel
  induction fuel with
  | zero =>
    intro frontier st ev hev
    cases frontier <;> simp [dispatch] at hev
  | succ n ih =>
    intro frontier st ev hev
    cases frontier with
    | nil => simp [dispatch] at hev
    | cons d rest =>
      rcases hr : runHandlers env chain d st with ⟨res, st1, evs1⟩
      have hh := runHandlers_events_traversal env chain d st
      rw [hr] at hh
      cases res with
      | error e =>
        simp [dispatch, hr] at hev
        exact hh ev hev
      | ok ch =>
        simp [dispatch, hr] at hev
        rcases hev with hev | hev
        · exact hh ev hev
        · exact ih (ch ++ rest) st1 ev hev

/-! ## Claim theorems -/

/-- C2: for every descriptor passed to the push filter handler, a
descriptor whose media type is one of the four manifest-like types
(Docker schema 2 manifest, OCI image manifest, Docker manifest list, OCI
image index) is appended to the manifest stack and answered with the
`StopHandler` signal and no children; any other media type passes
through with no children and no error, stack unchanged. -/
theorem filterHandler_manifest_filter (d : Descriptor) (manifestStack : List Descriptor) :
    (d.mediaType ∈ [MediaTypeDockerSchema2Manifest, MediaTypeImageManifest,
        MediaTypeDockerSchema2ManifestList, MediaTypeImageIndex] →
      filterHandler d manifestStack = (HRes.stop, manifestStack ++ [d])) ∧
    (d.mediaType ∉ [MediaTypeDockerSchema2Manifest, MediaTypeImageManifest,
        MediaTypeDockerSchema2ManifestList, MediaTypeImageIndex] →
      filterHandler d manifestStack = (HRes.ok [], manifestStack)) := by
  constructor
  · intro hmem
    have hml : manifestLikeMT d.mediaType = true := by
      simp only [List.mem_cons, List.mem_singleton, List.not_mem_nil, or_false] at hmem
      rcases hmem with h | h | h | h <;> simp [manifestLikeMT, h]
    simp [filterHandler, hml]
  · intro hmem
    have hml : manifestLikeMT d.mediaType = false := by
      simp only [List.mem_cons, List.mem_singleton, List.not_mem_nil, or_false,
        not_or] at hmem
      obtain ⟨h1, h2, h3, h4⟩ := hmem
      simp [manifestLikeMT, h1, h2, h3, h4]
    simp [filterHandler, hml]

theorem filterHandler_manifest_filter_witness :
    (descManifest.mediaType ∈ [MediaTypeDockerSchema2Manifest, MediaTypeImageManifest,
        MediaTypeDockerSchema2ManifestList, MediaTypeImageIndex]) ∧
    filterHandler descManifest [] = (HRes.stop, [descManifest]) ∧
    (descLayer.mediaType ∉ [MediaTypeDockerSchema2Manifest, MediaTypeImageManifest,
        MediaTypeDockerSchema2ManifestList, MediaTypeImageIndex]) ∧
    filterHandler descLayer [descManifest] = (HRes.ok [], [descManifest]) := by
  refine ⟨by decide, ?_, by decide, ?_⟩
  · exact (filterHandler_manifest_filter descManifest []).1 (by decide)
  · exact (filterHandler_manifest_filter descLayer [descManifest]).2 (by decide)

/-- C10: if any caller-supplied remote option function fails while the
remote context is being built, `Pull` and `Push` return that error at
once with an empty trace — no resolution, no dispatch, no content-store
or image-registry operation. -/
theorem remote_opts_error_aborts (env : Env) (opts : List RemoteOpts) (e : Err)
    (ref : String) (root : Descriptor)
    (h : applyRemoteOpts opts = Except.error e) :
    Pull env opts ref = (Except.error e, []) ∧ Push env opts root = (some e, []) := by
  constructor
  · simp [Pull, h]
  · simp [Push, h]

theorem remote_opts_error_aborts_witness :
    applyRemoteOpts [failingRemoteOpt] = Except.error (Err.other "bad option") ∧
    Pull envW [failingRemoteOpt] "busybox" = (Except.error (Err.other "bad option"), []) ∧
    Push envW [failingRemoteOpt] descManifest = (some (Err.other "bad option"), []) := by
  refine ⟨rfl, ?_, ?_⟩
  · exact (remote_opts_error_aborts envW [failingRemoteOpt] (Err.other "bad option")
      "busybox" descManifest rfl).1
  · exact (remote_opts_error_aborts envW [failingRemoteOpt] (Err.other "bad option")
      "busybox" descManifest rfl).2

/-- C1: whenever the traversal dispatch of `Push` succeeds, the final
pass invokes the upload handler on the collected manifest stack entries
in reverse of their append (discovery) order: the trace after the
dispatch events is exactly the uploads of a prefix of the reversed
stack, and when all uploads succeed it is all of the reversed stack —
so an entry appended later (a descendant manifest) is uploaded before
every entry appended earlier (its ancestor). -/
theorem push_manifests_reverse_order (env : Env) (opts : List RemoteOpts)
    (ctx : RemoteContext) (root : Descriptor)
    (manifestStack : List Descriptor) (evs : List Event)
    (hopts : applyRemoteOpts opts = Except.ok ctx)
    (hpusher : env.pusherErr = none)
    (hdisp : dispatch env (pushChain ctx) env.fuel [root] [] =
      (none, manifestStack, evs)) :
    ∃ k, k ≤ manifestStack.length ∧
      Push env opts root =
        ((uploadAll env manifestStack.reverse).1,
          evs ++ (manifestStack.reverse.take k).map Event.upload) ∧
      ((uploadAll env manifestStack.reverse).1 = none →
        Push env opts root =
          (none, evs ++ manifestStack.reverse.map Event.upload)) := by
  obtain ⟨k, hk, h2, h3⟩ := uploadAll_events env manifestStack.reverse
  have hpush : Push env opts root =
      ((uploadAll env manifestStack.reverse).1,
        evs ++ (uploadAll env manifestStack.reverse).2) := by
    simp [Push, hopts, hpusher, hdisp]
  refine ⟨k, by simpa using hk, ?_, ?_⟩
  · rw [hpush, h2]
  · intro hnone
    rw [hpush, h2, h3 hnone, hnone]
    simp

theorem push_manifests_reverse_order_witness :
    applyRemoteOpts [] = Except.ok defaultRemoteContext ∧
    envW.pusherErr = none ∧
    dispatch envW (pushChain defaultRemoteContext) envW.fuel [descManifest] [] =
      (none, [descManifest], [Event.upload descLayer]) ∧
    (∃ k, k ≤ [descManifest].length ∧
      Push envW [] descManifest =
        ((uploadAll envW [descManifest].reverse).1,
          [Event.upload descLayer] ++ ([descManifest].reverse.take k).map Event.upload) ∧
      ((uploadAll envW [descManifest].reverse).1 = none →
        Push envW [] descManifest =
          (none, [Event.upload descLayer] ++ [descManifest].reverse.map Event.upload))) := by
  refine ⟨rfl, rfl, rfl, ?_⟩
  exact push_manifests_reverse_order envW [] defaultRemoteContext descManifest
    [descManifest] [Event.upload descLayer] rfl rfl rfl

/-- C7: a push aborts on the first error and signals it as the single
returned error: a hard dispatch error is returned as-is with the trace
accumulated so far, and an upload-handler error on a manifest stack
entry during the final reverse pass is returned with only the uploads
of the entries that preceded it in the reversed stack — the remaining
manifests are not uploaded. -/
theorem push_error_aborts (env : Env) (opts : List RemoteOpts)
    (ctx : RemoteContext) (root : Descriptor)
    (hopts : applyRemoteOpts opts = Except.ok ctx)
    (hpusher : env.pusherErr = none) :
    (∀ e manifestStack evs,
        dispatch env (pushChain ctx) env.fuel [root] [] = (some e, manifestStack, evs) →
        Push env opts root = (some e, evs)) ∧
    (∀ manifestStack evs l1 d l2 e,
        dispatch env (pushChain ctx) env.fuel [root] [] = (none, manifestStack, evs) →
        manifestStack.reverse = l1 ++ d :: l2 →
        (∀ x ∈ l1, env.uploadErr x = none) →
        env.uploadErr d = some e →
        Push env opts root = (some e, evs ++ l1.map Event.upload)) := by
  constructor
  · intro e ms evs hdisp
    simp [Push, hopts, hpusher, hdisp]
  · intro ms evs l1 d l2 e hdisp hrev h1 h2
    simp [Push, hopts, hpusher, hdisp, hrev, uploadAll_error env l1 d l2 e h1 h2]

theorem push_error_aborts_witness :
    applyRemoteOpts [] = Except.ok defaultRemoteContext ∧
    envUploadErr.pusherErr = none ∧
    dispatch envUploadErr (pushChain defaultRemoteContext) envUploadErr.fuel
      [descManifest] [] = (none, [descManifest], [Event.upload descLayer]) ∧
    [descManifest].reverse = [] ++ descManifest :: [] ∧
    envUploadErr.uploadErr descManifest = some (Err.other "upload failed") ∧
    Push envUploadErr [] descManifest =
      (some (Err.other "upload failed"), [Event.upload descLayer]) := by
  refine ⟨rfl, rfl, rfl, rfl, rfl, ?_⟩
  have := (push_error_aborts envUploadErr [] defaultRemoteContext descManifest
      rfl rfl).2 [descManifest] [Event.upload descLayer] [] descManifest []
      (Err.other "upload failed") rfl rfl (by intro x hx; simp at hx) rfl
  simpa using this

/-- C3: for a pull whose dispatch succeeds, `Pull` attempts an update of
the image record (resolved name, possibly-converted target); exactly
when the update fails with a `NotFound`-kind error it falls back to
creating the record, and any other update error, or a create error,
fails the pull.  The four cases cover every update/create outcome. -/
theorem pull_upsert_create_or_update (env : Env) (opts : List RemoteOpts)
    (ctx : RemoteContext) (ref name : String) (desc : Descriptor)
    (manifestStack : List Descriptor) (evs : List Event) (desc2 : Descriptor)
    (hopts : applyRemoteOpts opts = Except.ok ctx)
    (hres : env.resolve ref = Except.ok (name, desc))
    (hfetch : env.fetcherErr = none)
    (hdisp : dispatch env (pullChain ctx desc) env.fuel [desc] [] =
      (none, manifestStack, evs))
    (hconv : convertPhase env (schema1Mode ctx desc) desc = Except.ok desc2)
    (hunpack : ctx.unpack = false) :
    (env.update name desc2 = none →
      Pull env opts ref =
        (Except.ok ⟨name, desc2⟩,
          Event.resolve ref :: (evs ++ [Event.imgUpdate name desc2]))) ∧
    (∀ e, env.update name desc2 = some e → e.isNotFound = true →
        env.create name desc2 = none →
      Pull env opts ref =
        (Except.ok ⟨name, desc2⟩,
          Event.resolve ref ::
            (evs ++ [Event.imgUpdate name desc2, Event.imgCreate name desc2]))) ∧
    (∀ e, env.update name desc2 = some e → e.isNotFound = false →
      Pull env opts ref =
        (Except.error e,
          Event.resolve ref :: (evs ++ [Event.imgUpdate name desc2]))) ∧
    (∀ e e2, env.update name desc2 = some e → e.isNotFound = true →
        env.create name desc2 = some e2 →
      Pull env opts ref =
        (Except.error e2,
          Event.resolve ref ::
            (evs ++ [Event.imgUpdate name desc2, Event.imgCreate name desc2]))) := by
  refine ⟨?_, ?_, ?_, ?_⟩
  · intro hupd
    simp [Pull, hopts, hres, hfetch, pullResolved, hdisp, hconv, pullFinish, hupd,
      withUnpack, hunpack]
  · intro e hupd hnf hcreate
    simp [Pull, hopts, hres, hfetch, pullResolved, hdisp, hconv, pullFinish, hupd,
      hnf, hcreate, withUnpack, hunpack]
  · intro e hupd hnf
    simp [Pull, hopts, hres, hfetch, pullResolved, hdisp, hconv, pullFinish, hupd,
      hnf, withUnpack, hunpack]
  · intro e e2 hupd hnf hcreate
    simp [Pull, hopts, hres, hfetch, pullResolved, hdisp, hconv, pullFinish, hupd,
      hnf, hcreate, withUnpack, hunpack]

theorem pull_upsert_create_or_update_witness :
    envNoRecord.update "docker.io/library/busybox:latest" descManifest =
      some Err.notFound ∧
    Err.isNotFound Err.notFound = true ∧
    envNoRecord.create "docker.io/library/busybox:latest" descManifest = none ∧
    Pull envNoRecord [] "busybox" =
      (Except.ok ⟨"docker.io/library/busybox:latest", descManifest⟩,
        [Event.resolve "busybox", Event.storeWrite descManifest,
         Event.storeWrite descLayer,
         Event.imgUpdate "docker.io/library/busybox:latest" descManifest,
         Event.imgCreate "docker.io/library/busybox:latest" descManifest]) := by
  refine ⟨rfl, rfl, rfl, ?_⟩
  have := (pull_upsert_create_or_update envNoRecord [] defaultRemoteContext "busybox"
      "docker.io/library/busybox:latest" descManifest []
      [Event.storeWrite descManifest, Event.storeWrite descLayer] descManifest
      rfl rfl rfl rfl rfl rfl).2.1 Err.notFound rfl rfl rfl
  simpa using this

/-- C5: for a schema 1 pull with conversion enabled, the handler chain is
the base handlers followed by the single schema 1 converter handler —
neither the fetch-into-store handler nor the children-discovery handler
is installed — and the upserted image record's target is the converted
descriptor produced by the converter, not the resolved one. -/
theorem pull_schema1_convert_chain (env : Env) (opts : List RemoteOpts)
    (ctx : RemoteContext) (ref name : String) (desc cdesc : Descriptor)
    (manifestStack : List Descriptor) (evs : List Event)
    (hopts : applyRemoteOpts opts = Except.ok ctx)
    (hres : env.resolve ref = Except.ok (name, desc))
    (hfetch : env.fetcherErr = none)
    (hmt : desc.mediaType = MediaTypeDockerSchema1Manifest)
    (hcv : ctx.convertSchema1 = true)
    (hdisp : dispatch env (pullChain ctx desc) env.fuel [desc] [] =
      (none, manifestStack, evs))
    (hconv : env.convert = Except.ok cdesc)
    (hupd : env.update name cdesc = none)
    (hunpack : ctx.unpack = false) :
    pullChain ctx desc = ctx.baseHandlers.map CHandler.base ++ [CHandler.schema1H] ∧
    CHandler.fetchH ∉ pullChain ctx desc ∧
    CHandler.childrenH ∉ pullChain ctx desc ∧
    Pull env opts ref =
      (Except.ok ⟨name, cdesc⟩,
        Event.resolve ref :: (evs ++ [Event.imgUpdate name cdesc])) := by
  have hmode : schema1Mode ctx desc = true := by simp [schema1Mode, hmt, hcv]
  have hchain : pullChain ctx desc =
      ctx.baseHandlers.map CHandler.base ++ [CHandler.schema1H] := by
    simp [pullChain, hmode]
  refine ⟨hchain, ?_, ?_, ?_⟩
  · rw [hchain]
    simp [List.mem_append, List.mem_map]
  · rw [hchain]
    simp [List.mem_append, List.mem_map]
  · simp [Pull, hopts, hres, hfetch, pullResolved, hdisp, convertPhase, hmode, hconv,
      pullFinish, hupd, withUnpack, hunpack]

theorem pull_schema1_convert_chain_witness :
    descSchema1.mediaType = MediaTypeDockerSchema1Manifest ∧
    ctxSchema1.convertSchema1 = true ∧
    applyRemoteOpts [WithSchema1Conversion] = Except.ok ctxSchema1 ∧
    envSchema1.convert = Except.ok descManifest ∧
    (pullChain ctxSchema1 descSchema1 =
        ctxSchema1.baseHandlers.map CHandler.base ++ [CHandler.schema1H] ∧
      CHandler.fetchH ∉ pullChain ctxSchema1 descSchema1 ∧
      CHandler.childrenH ∉ pullChain ctxSchema1 descSchema1 ∧
      Pull envSchema1 [WithSchema1Conversion] "legacy/ref" =
        (Except.ok ⟨"legacy/name", descManifest⟩,
          [Event.resolve "legacy/ref",
           Event.imgUpdate "legacy/name" descManifest])) := by
  refine ⟨rfl, rfl, rfl, rfl, ?_⟩
  have := pull_schema1_convert_chain envSchema1 [WithSchema1Conversion] ctxSchema1
    "legacy/ref" "legacy/name" descSchema1 descManifest [] [] rfl rfl rfl rfl rfl
    rfl rfl rfl rfl
  simpa using this

/-- C6: a pull in which resolution fails, or the dispatch returns a hard
error, returns that error and performs no image-metadata-registry
operation: its trace contains no update and no create event. -/
theorem pull_hard_error_no_registry_op (env : Env) (opts : List RemoteOpts)
    (ctx : RemoteContext) (ref : String)
    (hopts : applyRemoteOpts opts = Except.ok ctx) :
    (∀ e, env.resolve ref = Except.error e →
      Pull env opts ref = (Except.error e, [Event.resolve ref]) ∧
      ∀ ev ∈ [Event.resolve ref], isRegistryEvent ev = false) ∧
    (∀ name desc e manifestStack evs,
        env.resolve ref = Except.ok (name, desc) → env.fetcherErr = none →
        dispatch env (pullChain ctx desc) env.fuel [desc] [] =
          (some e, manifestStack, evs) →
      Pull env opts ref = (Except.error e, Event.resolve ref :: evs) ∧
      ∀ ev ∈ Event.resolve ref :: evs, isRegistryEvent ev = false) := by
  constructor
  · intro e hres
    constructor
    · simp [Pull, hopts, hres]
    · intro ev hev
      simp at hev
      simp [hev, isRegistryEvent]
  · intro name desc e ms evs hres hfetch hdisp
    constructor
    · simp [Pull, hopts, hres, hfetch, pullResolved, hdisp]
    · intro ev hev
      have hdevs := dispatch_events_traversal env (pullChain ctx desc) env.fuel [desc] []
      rw [hdisp] at hdevs
      simp only [List.mem_cons] at hev
      rcases hev with hev | hev
      · simp [hev, isRegistryEvent]
      · have := hdevs ev hev
        cases ev <;> simp_all [isTraversalEvent, isRegistryEvent]

theorem pull_hard_error_no_registry_op_witness :
    envResolveErr.resolve "busybox" = Except.error (Err.other "resolve failed") ∧
    Pull envResolveErr [] "busybox" =
      (Except.error (Err.other "resolve failed"), [Event.resolve "busybox"]) ∧
    (∀ ev ∈ [Event.resolve "busybox"], isRegistryEvent ev = false) := by
  refine ⟨rfl, ?_⟩
  have := (pull_hard_error_no_registry_op envResolveErr [] defaultRemoteContext
      "busybox" rfl).1 (Err.other "resolve failed") rfl
  exact this

theorem runHandlers_base_error (env : Env) (bs : List (Descriptor → HRes))
    (rest : List CHandler) (d : Descriptor) (st : List Descriptor)
    (e : Err) (st2 : List Descriptor) (evs2 : List Event)
    (hbase : ∀ f ∈ bs, ∃ ch, f d = HRes.ok ch)
    (hrest : runHandlers env rest d st = (Except.error e, st2, evs2)) :
    runHandlers env (bs.map CHandler.base ++ rest) d st =
      (Except.error e, st2, evs2) := by
  induction bs with
  | nil => simpa using hrest
  | cons f bs ih =>
    obtain ⟨ch, hch⟩ := hbase f (by simp)
    have htail := ih (fun g hg => hbase g (by simp [hg]))
    simp [runHandlers, runHandler, hch, htail]

/-- C4 counterexample: the claim quantifies over every pull with a
schema 1 root and conversion disabled, but a caller-supplied base
handler (installed with `WithImageHandler`) that answers `StopHandler`
makes the chain break before the fetch handler runs, so the dispatch
succeeds and the pull completes with an image record instead of an
`UnsupportedFormat` error. -/
theorem pull_schema1_noconvert_counterexample :
    descSchema1.mediaType = MediaTypeDockerSchema1Manifest ∧
    applyRemoteOpts [WithImageHandler stopBaseHandler] = Except.ok ctxStopBase ∧
    ctxStopBase.convertSchema1 = false ∧
    envSchema1.resolve "legacy/ref" = Except.ok ("legacy/name", descSchema1) ∧
    (Pull envSchema1 [WithImageHandler stopBaseHandler] "legacy/ref").1 =
      Except.ok ⟨"legacy/name", descSchema1⟩ := by
  exact ⟨rfl, rfl, rfl, rfl, rfl⟩

/-- C4 (amended): for every pull whose resolved root descriptor has the
Docker schema 1 manifest media type, whose `ConvertSchema1` option is
false, and whose caller-supplied base handlers all pass through on the
root descriptor (returning children with no error and no `StopHandler`),
`Pull` returns the `UnsupportedFormat` error and performs no
content-store write: its trace is the resolution event alone.  (The
positive-fuel hypothesis is the dispatcher-model artifact.) -/
theorem pull_schema1_noconvert_unsupported (env : Env) (opts : List RemoteOpts)
    (ctx : RemoteContext) (ref name : String) (desc : Descriptor)
    (hopts : applyRemoteOpts opts = Except.ok ctx)
    (hbase : ∀ f ∈ ctx.baseHandlers, ∃ ch, f desc = HRes.ok ch)
    (hres : env.resolve ref = Except.ok (name, desc))
    (hfetch : env.fetcherErr = none)
    (hmt : desc.mediaType = MediaTypeDockerSchema1Manifest)
    (hcv : ctx.convertSchema1 = false)
    (hfuel : env.fuel ≠ 0) :
    Pull env opts ref = (Except.error Err.unsupportedFormat, [Event.resolve ref]) ∧
    ∀ d, Event.storeWrite d ∉ [Event.resolve ref] := by
  have hchain : pullChain ctx desc =
      ctx.baseHandlers.map CHandler.base ++ [CHandler.fetchH, CHandler.childrenH] := by
    simp [pullChain, schema1Mode, hcv]
  have hrh : runHandlers env (pullChain ctx desc) desc [] =
      (Except.error Err.unsupportedFormat, [], []) := by
    rw [hchain]
    exact runHandlers_base_error env ctx.baseHandlers _ desc [] _ [] [] hbase
      (by simp [runHandlers, runHandler, hmt])
  obtain ⟨n, hn⟩ : ∃ n, env.fuel = n + 1 :=
    ⟨env.fuel - 1, by omega⟩
  constructor
  · simp [Pull, hopts, hres, hfetch, pullResolved, hn, dispatch, hrh]
  · simp

theorem pull_schema1_noconvert_unsupported_witness :
    descSchema1.mediaType = MediaTypeDockerSchema1Manifest ∧
    defaultRemoteContext.convertSchema1 = false ∧
    envSchema1.fuel ≠ 0 ∧
    Pull envSchema1 [] "legacy/ref" =
      (Except.error Err.unsupportedFormat, [Event.resolve "legacy/ref"]) := by
  refine ⟨rfl, rfl, by decide, ?_⟩
  exact (pull_schema1_noconvert_unsupported envSchema1 [] defaultRemoteContext
    "legacy/ref" "legacy/name" descSchema1 rfl (by simp [defaultRemoteContext])
    rfl rfl rfl rfl (by decide)).1

theorem pullFinish_no_unpack_event (env : Env) (ctx : RemoteContext)
    (name : String) (desc2 : Descriptor) (h : ctx.unpack = false) :
    ∀ s, Event.unpack s ∉ (pullFinish env ctx name desc2).2 := by
  intro s
  unfold pullFinish
  cases hu : env.update name desc2 with
  | none => simp [withUnpack, h]
  | some e =>
    cases hnf : e.isNotFound with
    | false => simp [hnf]
    | true =>
      cases hc : env.create name desc2 with
      | some e2 => simp [hnf]
      | none => simp [hnf, withUnpack, h]

theorem pullResolved_no_unpack_event (env : Env) (ctx : RemoteContext)
    (name : String) (desc : Descriptor) (h : ctx.unpack = false) :
    ∀ s, Event.unpack s ∉ (pullResolved env ctx name desc).2 := by
  intro s
  unfold pullResolved
  rcases hd : dispatch env (pullChain ctx desc) env.fuel [desc] [] with ⟨r, st, evs⟩
  have hevs : ∀ ev ∈ evs, isTraversalEvent ev = true := by
    have := dispatch_events_traversal env (pullChain ctx desc) env.fuel [desc] []
    rw [hd] at this
    exact this
  cases r with
  | some e =>
    intro hmem
    simp only [] at hmem
    have := hevs _ hmem
    simp [isTraversalEvent] at this
  | none =>
    cases hc : convertPhase env (schema1Mode ctx desc) desc with
    | error e =>
      intro hmem
      simp only [] at hmem
      have := hevs _ hmem
      simp [isTraversalEvent] at this
    | ok desc2 =>
      simp only [List.mem_append]
      rintro (hmem | hmem)
      · have := hevs _ hmem
        simp [isTraversalEvent] at this
      · exact pullFinish_no_unpack_event env ctx name desc2 h s hmem

theorem pull_no_unpack_event (env : Env) (opts : List RemoteOpts)
    (ctx : RemoteContext) (ref : String)
    (hopts : applyRemoteOpts opts = Except.ok ctx) (h : ctx.unpack = false) :
    ∀ s, Event.unpack s ∉ (Pull env opts ref).2 := by
  intro s
  unfold Pull
  rw [hopts]
  cases hr : env.resolve ref with
  | error e => simp
  | ok p =>
    obtain ⟨name, desc⟩ := p
    cases hf : env.fetcherErr with
    | some e => simp
    | none =>
      simp only [List.mem_cons, not_or]
      exact ⟨by simp, pullResolved_no_unpack_event env ctx name desc h s⟩

/-- C8: for a pull that reaches the image-record upsert successfully, if
the `Unpack` option is true the unpack collaborator is invoked with the
configured snapshotter name right after the upsert, a failure of which
fails the whole pull with that error; and if `Unpack` is false no unpack
invocation ever appears in the pull's trace. -/
theorem pull_unpack_behavior (env : Env) (opts : List RemoteOpts)
    (ctx : RemoteContext) (ref : String)
    (hopts : applyRemoteOpts opts = Except.ok ctx) :
    (∀ name desc manifestStack evs desc2,
        env.resolve ref = Except.ok (name, desc) → env.fetcherErr = none →
        dispatch env (pullChain ctx desc) env.fuel [desc] [] =
          (none, manifestStack, evs) →
        convertPhase env (schema1Mode ctx desc) desc = Except.ok desc2 →
        env.update name desc2 = none →
        ctx.unpack = true →
      (env.unpackErr ctx.snapshotter = none →
        Pull env opts ref =
          (Except.ok ⟨name, desc2⟩,
            Event.resolve ref ::
              (evs ++ [Event.imgUpdate name desc2,
                       Event.unpack ctx.snapshotter]))) ∧
      (∀ e, env.unpackErr ctx.snapshotter = some e →
        Pull env opts ref =
          (Except.error e,
            Event.resolve ref ::
              (evs ++ [Event.imgUpdate name desc2,
                       Event.unpack ctx.snapshotter])))) ∧
    (ctx.unpack = false → ∀ s, Event.unpack s ∉ (Pull env opts ref).2) := by
  constructor
  · intro name desc ms evs desc2 hres hfetch hdisp hconv hupd hunp
    constructor
    · intro hue
      simp [Pull, hopts, hres, hfetch, pullResolved, hdisp, hconv, pullFinish, hupd,
        withUnpack, hunp, hue]
    · intro e hue
      simp [Pull, hopts, hres, hfetch, pullResolved, hdisp, hconv, pullFinish, hupd,
        withUnpack, hunp, hue]
  · intro h
    exact pull_no_unpack_event env opts ctx ref hopts h

theorem pull_unpack_behavior_witness :
    applyRemoteOpts [WithPullUnpack] = Except.ok ctxUnpack ∧
    ctxUnpack.unpack = true ∧
    envW.unpackErr ctxUnpack.snapshotter = none ∧
    Pull envW [WithPullUnpack] "busybox" =
      (Except.ok ⟨"docker.io/library/busybox:latest", descManifest⟩,
        [Event.resolve "busybox", Event.storeWrite descManifest,
         Event.storeWrite descLayer,
         Event.imgUpdate "docker.io/library/busybox:latest" descManifest,
         Event.unpack ""]) := by
  refine ⟨rfl, rfl, rfl, ?_⟩
  have := ((pull_unpack_behavior envW [WithPullUnpack] ctxUnpack "busybox" rfl).1
      "docker.io/library/busybox:latest" descManifest []
      [Event.storeWrite descManifest, Event.storeWrite descLayer] descManifest
      rfl rfl rfl rfl rfl rfl).1 rfl
  simpa using this

/-- C9: an `Import` or `Export` call whose resolved format option is not
the OCI format returns the unsupported-format error (for `Export`, no
reader); and a call with no format option set behaves exactly as if the
OCI format had been requested. -/
theorem import_export_format_gate :
    (∀ env ref opts iopts, resolveImportOpt env ref opts = Except.ok iopts →
        iopts.format ≠ ociImageFormat →
        Import env ref opts = Except.error Err.unsupportedFormat) ∧
    (∀ env desc opts eopts, foldOpts opts ({} : exportOpts) = Except.ok eopts →
        eopts.format ≠ "" → eopts.format ≠ ociImageFormat →
        Export env desc opts = Except.error Err.unsupportedFormat) ∧
    (∀ env ref opts iopts, foldOpts opts ({} : importOpts) = Except.ok iopts →
        iopts.format = "" →
        Import env ref opts = Import env ref (opts ++ [WithOCIImportFormat])) ∧
    (∀ env desc opts eopts, foldOpts opts ({} : exportOpts) = Except.ok eopts →
        eopts.format = "" →
        Export env desc opts = Export env desc (opts ++ [WithOCIExportFormat])) := by
  refine ⟨?_, ?_, ?_, ?_⟩
  · intro env ref opts iopts h1 h2
    simp [Import, h1, h2]
  · intro env desc opts eopts h1 h2 h3
    simp [Export, h1, h2, h3]
  · intro env ref opts iopts h1 h2
    have hres : resolveImportOpt env ref (opts ++ [WithOCIImportFormat]) =
        resolveImportOpt env ref opts := by
      simp [resolveImportOpt, foldOpts_append, h1, foldOpts, WithOCIImportFormat, h2,
        ociImageFormat]
    simp [Import, hres]
  · intro env desc opts eopts h1 h2
    have happ : foldOpts (opts ++ [WithOCIExportFormat]) ({} : exportOpts) =
        Except.ok { eopts with format := ociImageFormat } := by
      simp [foldOpts_append, h1, foldOpts, WithOCIExportFormat, h2]
    simp [Export, h1, happ, h2, ociImageFormat]

theorem import_export_format_gate_witness :
    resolveImportOpt envW "busybox" [dockerFormatOpt] =
      Except.ok ⟨"docker-archive", "latest"⟩ ∧
    ("docker-archive" : String) ≠ ociImageFormat ∧
    Import envW "busybox" [dockerFormatOpt] = Except.error Err.unsupportedFormat ∧
    Export envW descManifest [dockerExportFormatOpt] =
      Except.error Err.unsupportedFormat := by
  refine ⟨rfl, by decide, ?_, ?_⟩
  · exact import_export_format_gate.1 envW "busybox" [dockerFormatOpt]
      ⟨"docker-archive", "latest"⟩ rfl (by decide)
  · exact import_export_format_gate.2.1 envW descManifest [dockerExportFormatOpt]
      ⟨"docker-archive"⟩ rfl (by decide) (by decide)

end Containerd
